import Mathlib

/-!
Verification of the element-type abstraction layer of the tensorstore
repository: the `DataType` descriptor/handle model, the canonical type
registry, the elementwise operation table (compare_equal, copy_assign,
move_assign, construct, destroy), the casting discipline and the shared
allocation helper, together with the Python-binding lookup functions of
`src/python/tensorstore/data_type.cc`.

The core header `tensorstore/data_type.h` is not part of the provided
sources (only its test `src/tensorstore/data_type_test.cc` is), so the
definitions for the core are modelled from the specification, with the
behaviour pinned by the test file.  The Python-binding functions
(`GetDataType` on a NumPy dtype, `GetNumpyTypeNum`,
`GetTypeObjectOrThrow`, the `__call__` binding) are embedded directly
from `src/python/tensorstore/data_type.cc`, with the NumPy tables that
live outside the provided sources abstracted as parameters.
-/

namespace TensorStore

/-- Modelled from the spec: the closed, dense enumeration of built-in type
identities of the canonical type registry (`DataTypeId` in
`tensorstore/data_type.h`, absent from the provided sources), plus the
`custom` sentinel for types outside the catalog. -/
inductive DataTypeId where
  | bool_t
  | char_t
  | byte_t
  | int8_t
  | uint8_t
  | int16_t
  | uint16_t
  | int32_t
  | uint32_t
  | int64_t
  | uint64_t
  | float16_t
  | bfloat16_t
  | float32_t
  | float64_t
  | complex64_t
  | complex128_t
  | string_t
  | ustring_t
  | json_t
  | custom
deriving DecidableEq, Fintype, Repr

/-- Modelled from the spec: the stable lowercase canonical name of each
built-in identity, as pinned by `DataTypeTest.Name` in
`src/tensorstore/data_type_test.cc`.  The `custom` sentinel has no
canonical registry name; it is mapped to the empty string here and is
excluded from registry claims. -/
def dataTypeName : DataTypeId → String
  | .bool_t => "bool"
  | .char_t => "char"
  | .byte_t => "byte"
  | .int8_t => "int8"
  | .uint8_t => "uint8"
  | .int16_t => "int16"
  | .uint16_t => "uint16"
  | .int32_t => "int32"
  | .uint32_t => "uint32"
  | .int64_t => "int64"
  | .uint64_t => "uint64"
  | .float16_t => "float16"
  | .bfloat16_t => "bfloat16"
  | .float32_t => "float32"
  | .float64_t => "float64"
  | .complex64_t => "complex64"
  | .complex128_t => "complex128"
  | .string_t => "string"
  | .ustring_t => "ustring"
  | .json_t => "json"
  | .custom => ""

/-- Modelled from the spec: the list of built-in identities of the closed
registry (every identity except the `custom` sentinel). -/
def builtinIds : List DataTypeId :=
  [.bool_t, .char_t, .byte_t, .int8_t, .uint8_t, .int16_t, .uint16_t,
   .int32_t, .uint32_t, .int64_t, .uint64_t, .float16_t, .bfloat16_t,
   .float32_t, .float64_t, .complex64_t, .complex128_t, .string_t,
   .ustring_t, .json_t]

/-- Modelled from the spec: the `DataType` handle of
`tensorstore/data_type.h` (absent from the provided sources): either
invalid (no referent) or a reference to the canonical singleton
descriptor of one identity.  Handle equality is descriptor identity. -/
inductive DataType where
  | invalid
  | builtin (id : DataTypeId)
deriving DecidableEq, Repr

/-- Modelled from the spec: the validity query `DataType::valid()`. -/
def DataType.valid : DataType → Bool
  | .invalid => false
  | .builtin _ => true

/-- Modelled from the spec: the string rendering of a handle (ostream
printing): an invalid handle renders as the fixed placeholder token, a
valid handle renders as its name, as pinned by
`DataTypeTest.PrintToOstream`. -/
def DataType.render : DataType → String
  | .invalid => "<unspecified>"
  | .builtin id => dataTypeName id

/-- Modelled from the spec: `tensorstore::GetDataType(name)`, the
name-to-handle registry lookup: scans the closed set of built-in
identities for one whose canonical name matches, returning the invalid
handle when the name is absent from the registry (pinned by
`DataTypeTest.GetDataType`). -/
def GetDataType (name : String) : DataType :=
  match builtinIds.find? (fun id => dataTypeName id = name) with
  | some id => .builtin id
  | none => .invalid

/-- Modelled from the spec: the checked dynamic cast
`StaticDataTypeCast<Target>(source)` of `tensorstore/data_type.h`
(absent from the provided sources): an invalid source is treated as
"any type" and casting it to a concrete target succeeds with the target
handle; a matching source succeeds unchanged; a mismatched concrete
source fails with the error message pinned by `DataTypeCastTest.Basic`. -/
def StaticDataTypeCast (target : DataTypeId) (source : DataType) : Except String DataType :=
  match source with
  | .invalid => .ok (.builtin target)
  | .builtin id =>
    if id = target then .ok (.builtin id)
    else .error ("Cannot cast data type of " ++ dataTypeName id ++
                 " to data type of " ++ dataTypeName target)

/-- A string `pat` occurs as a contiguous substring of `s`. -/
def strContains (s pat : String) : Prop :=
  ∃ pre post : String, s = pre ++ pat ++ post

/-- Modelled from the spec: the strided
`tensorstore::internal::IterationBufferPointer`: a base byte address and
an explicit per-element byte stride.  Element `i` of the run lives at
byte address `base + i * stride`. -/
structure IterationBufferPointer where
  base : Int
  stride : Int
deriving DecidableEq, Repr

/-- Byte-addressed memory of element values: `mem a` is the value of the
machine word stored at byte address `a`.  Values are abstract naturals
standing for the bit pattern of one element. -/
def Mem : Type := Int → Nat

/-- Read the element `i` of a strided run in memory `mem`. -/
def readElem (mem : Mem) (p : IterationBufferPointer) (i : Nat) : Nat :=
  mem (p.base + i * p.stride)

/-- Write value `v` at byte address `a`, leaving every other address
unchanged. -/
def writeMem (mem : Mem) (a : Int) (v : Nat) : Mem :=
  fun x => if x = a then v else mem x

/-- Modelled from the spec: the early-exit loop underlying the strided
`compare_equal` entry generated by `SimpleElementwiseFunction`
(`tensorstore/data_type.h` / `internal/elementwise_function.h`, absent
from the provided sources): starting at element index `i` with `k`
elements left, compare one element at a time and stop at the first
index whose elements are unequal, returning that index; return `i + k`
when every remaining element matches. -/
def compareEqualLoop (elemEq : Nat → Bool) : Nat → Nat → Nat
  | i, 0 => i
  | i, k + 1 => if elemEq i then compareEqualLoop elemEq (i + 1) k else i

/-- Modelled from the spec: the strided `compare_equal` operation of a
built-in scalar descriptor over `n` elements: elements at index `i` are
read from the two strided runs and compared for value equality. -/
def uintCompareEqual (mem : Mem) (n : Nat) (a b : IterationBufferPointer) : Nat :=
  compareEqualLoop (fun i => readElem mem a i = readElem mem b i) 0 n

/-- Stated from the specification sentence: `compare_equal` "must return
the index of the first mismatching element, or n if all match".  The
first index in `0, ..., n-1` at which the element comparison fails, or
`n` when there is none. -/
def specFirstMismatch (elemEq : Nat → Bool) (n : Nat) : Nat :=
  match (List.range n).find? (fun i => !(elemEq i)) with
  | some i => i
  | none => n

/-- Modelled from the spec: the strided `compare_equal` entry of the
descriptor of the custom class type `X` of the test file
(`struct X { int value = 3; ~X() { value = 5; } }`), which defines no
equality comparison: the generated per-element comparison reports
unequal for every element pair, so the loop stops at index 0 whenever
`n >= 1`.  The two buffer pointers are accepted but never dereferenced
for a type without equality. -/
def xCompareEqual (n : Nat) (_a _b : IterationBufferPointer) : Nat :=
  compareEqualLoop (fun _ => false) 0 n

/-- Modelled from the spec: the sequential strided assignment loop
underlying `copy_assign`/`move_assign` for a trivially-copyable scalar:
starting at element index `i` with `k` elements left, assign
destination element `i` from source element `i`, then continue with the
updated memory. -/
def copyAssignFrom (src dst : IterationBufferPointer) : Nat → Nat → Mem → Mem
  | _, 0, mem => mem
  | i, k + 1, mem =>
    copyAssignFrom src dst (i + 1) k
      (writeMem mem (dst.base + i * dst.stride) (readElem mem src i))

/-- Modelled from the spec: the strided `copy_assign` operation of a
built-in scalar descriptor: assigns `n` elements in index order and,
since built-in scalar assignment never fails, returns the full count
`n` of elements processed. -/
def uintCopyAssign (mem : Mem) (n : Nat) (src dst : IterationBufferPointer) : Mem × Nat :=
  (copyAssignFrom src dst 0 n mem, n)

/-- Modelled from the spec: the strided `move_assign` operation of a
built-in scalar descriptor; for a trivially-copyable scalar the move
assigns exactly as the copy does, element by element in index order,
returning `n`. -/
def uintMoveAssign (mem : Mem) (n : Nat) (src dst : IterationBufferPointer) : Mem × Nat :=
  (copyAssignFrom src dst 0 n mem, n)

/-- Stated from the specification sentence: the reference scalar loop of
"element-by-element sequential assignment in index order": a left fold
over the indices `0, ..., n-1`, each step assigning destination element
`i` from source element `i` in the current memory. -/
def refSeqAssign (src dst : IterationBufferPointer) (n : Nat) (mem : Mem) : Mem :=
  (List.range n).foldl
    (fun m (i : Nat) => writeMem m (dst.base + i * dst.stride) (readElem m src i)) mem

/-- One observable event of a bulk `construct`/`destroy` run over the
custom class type `X` of the test file: the constructor or the
destructor of element `i` ran. -/
inductive XEvent where
  | ctor (i : Nat)
  | dtor (i : Nat)
deriving DecidableEq, Repr

/-- Element-indexed memory of the `value` field of an array of `X`:
`mem i` is `dest_arr[i].value`. -/
def XMem : Type := Nat → Nat

/-- Write the `value` field of element `i`. -/
def writeXMem (mem : XMem) (i v : Nat) : XMem :=
  fun j => if j = i then v else mem j

/-- Modelled from the spec: the bulk elementwise loop underlying the
`construct`/`destroy` operation slots of `tensorstore/data_type.h`
(absent from the provided sources): iterate over elements
`0, ..., n-1` in index order, running one per-element step each time
and recording the event. -/
def xOpLoop (step : Nat → XMem → XMem) (ev : Nat → XEvent) (n : Nat) (mem : XMem) :
    XMem × List XEvent :=
  (List.range n).foldl (fun st i => (step i st.1, st.2 ++ [ev i])) (mem, [])

/-- Modelled from the spec: the `construct` operation of the descriptor
of `X`: value-initializes `n` elements, each constructor setting the
element's `value` field to 3 (`struct X { int value = 3; ... }`). -/
def xConstruct (n : Nat) (mem : XMem) : XMem × List XEvent :=
  xOpLoop (fun i m => writeXMem m i 3) XEvent.ctor n mem

/-- Modelled from the spec: the `destroy` operation of the descriptor of
`X`: releases `n` constructed elements, each destructor setting the
element's `value` field to 5 (`~X() { value = 5; }`). -/
def xDestroy (n : Nat) (mem : XMem) : XMem × List XEvent :=
  xOpLoop (fun i m => writeXMem m i 5) XEvent.dtor n mem

/-- Outcome of the shared-block allocation helper: either a block of
exactly the requested number of bytes was allocated, or the allocation
failed (thrown `std::bad_alloc` with exceptions, fatal signal
otherwise). -/
inductive AllocOutcome where
  | allocated (bytes : Nat)
  | badAlloc
deriving DecidableEq, Repr

/-- Modelled from the spec: the size computation and failure policy of
`tensorstore::AllocateAndConstructShared` (absent from the provided
sources; behaviour pinned by `AllocateAndConsructSharedDeathTest`): the
total byte size is the exact mathematical product `count * elemSize`,
never reduced modulo the machine word; when that product exceeds the
bytes the address space can provide (`avail`), the allocation fails
deterministically instead of wrapping to a small allocation. -/
def allocateSharedBytes (avail count elemSize : Nat) : AllocOutcome :=
  if count * elemSize ≤ avail then .allocated (count * elemSize) else .badAlloc

/-- The NumPy-facing environment of the Python binding
(`src/python/tensorstore/data_type.cc`): the dynamically-registered
bfloat16 type number (`Bfloat16NumpyTypeNum()`), the bound
`NPY_NTYPES` of the dense table, and the dense table
`kDataTypeIdForNumpyTypeNum` mapping a NumPy type number to a canonical
identity or to the `custom` sentinel when unmapped.  These live outside
the provided sources and are abstracted as parameters. -/
structure NumpyEnv where
  bfloat16Num : Int
  npyNtypes : Int
  idForTypeNum : Int → DataTypeId

/-- Embedded from `GetDataType(pybind11::dtype)` in
`src/python/tensorstore/data_type.cc`: first compare the type number
against the dynamically-registered bfloat16 code; then reject a type
number outside `[0, NPY_NTYPES]`; then consult the dense table,
rejecting the `custom` sentinel; otherwise return the canonical
singleton handle (`kDataTypes[id]`). -/
def getDataTypeFromNumpy (env : NumpyEnv) (typeNum : Int) : DataType :=
  if typeNum = env.bfloat16Num then .builtin .bfloat16_t
  else if typeNum < 0 ∨ typeNum > env.npyNtypes then .invalid
  else
    match env.idForTypeNum typeNum with
    | .custom => .invalid
    | id => .builtin id

/-- A Python type object as far as the binding layer observes it. -/
inductive PyTypeObj where
  | unicodeType
  | bytesType
  | numpyScalarType (id : DataTypeId)
deriving DecidableEq, Repr

/-- Embedded from `GetTypeObjectOrThrow(DataType)` in
`src/python/tensorstore/data_type.cc`: the `ustring` and `string`
identities return the boxed `PyUnicode_Type` / `PyBytes_Type` directly;
every other identity goes through `GetNumpyDtypeOrThrow` and reads the
dtype's type object (abstracted as the fallible `numpyLookup`). -/
def getTypeObjectOrThrow (numpyLookup : DataTypeId → Except String PyTypeObj)
    (id : DataTypeId) : Except String PyTypeObj :=
  match id with
  | .ustring_t => .ok .unicodeType
  | .string_t => .ok .bytesType
  | d => numpyLookup d

/-- Result of calling a Python `tensorstore.dtype` object on a scalar
argument. -/
inductive ScalarResult where
  | jsonScalar
  | constructedBy (t : PyTypeObj)
deriving DecidableEq, Repr

/-- Embedded from the `__call__` binding in `RegisterDataTypeBindings`
(`src/python/tensorstore/data_type.cc`): the `json` identity converts
the argument to a JSON value directly (`PyObjectToJson`), bypassing the
type-object path; every other identity constructs a scalar by calling
the object from `GetTypeObjectOrThrow`. -/
def callDataType (numpyLookup : DataTypeId → Except String PyTypeObj)
    (id : DataTypeId) : Except String ScalarResult :=
  if id = .json_t then .ok .jsonScalar
  else (getTypeObjectOrThrow numpyLookup id).map .constructedBy

/-- Concrete memory of `ElementOperationsTest.UnsignedIntCompareEqual`:
`arr1 = {1, 2, 2, 5, 6}` laid out at byte addresses 0, 4, 8, 12, 16 and
`arr2 = {1, 2, 3, 4, 6}` at byte addresses 100, 104, 108, 112, 116.
Viewing `arr1` with a two-element stride (8 bytes) gives 1, 2, 6 and
`arr2` with element-size stride (4 bytes) gives 1, 2, 3: the runs
differ first at index 2. -/
def cmpTestMem : Mem := fun a =>
  if a = 0 then 1 else if a = 4 then 2 else if a = 8 then 2
  else if a = 12 then 5 else if a = 16 then 6
  else if a = 100 then 1 else if a = 104 then 2 else if a = 108 then 3
  else if a = 112 then 4 else if a = 116 then 6
  else 0

/-- Concrete memory of `ElementOperationsTest.UnsignedIntCopyAssign` and
`UnsignedIntMoveAssign`: `source_arr = {1, 2, 3, 4, 5}` at byte
addresses 0..16 and `dest_arr` filled with `0xFFFFFFFF` at byte
addresses 100..116. -/
def copyTestMem : Mem := fun a =>
  if a = 0 then 1 else if a = 4 then 2 else if a = 8 then 3
  else if a = 12 then 4 else if a = 16 then 5
  else if a = 100 then 4294967295 else if a = 104 then 4294967295
  else if a = 108 then 4294967295 else if a = 112 then 4294967295
  else if a = 116 then 4294967295
  else 0

/-- A sample NumPy environment used to exhibit concrete instances of the
binding-lookup theorems: bfloat16 dynamically registered at code 256
(a user-defined code beyond the dense table), `NPY_NTYPES = 24`, and a
dense table mapping code 0 to `bool` and leaving every other code
unmapped. -/
def sampleNumpyEnv : NumpyEnv :=
  { bfloat16Num := 256
    npyNtypes := 24
    idForTypeNum := fun t => if t = 0 then .bool_t else .custom }

/-- The early-exit comparison loop starting at index `i` with `k`
elements left computes the first index at which the per-element
comparison fails, or `i + k` when every remaining element matches. -/
theorem compareEqualLoop_eq_find (elemEq : Nat → Bool) (k : Nat) :
    ∀ i : Nat,
      compareEqualLoop elemEq i k =
        match (List.range' i k).find? (fun j => !(elemEq j)) with
        | some j => j
        | none => i + k := by
  induction k with
  | zero => intro i; simp [compareEqualLoop]
  | succ k ih =>
    intro i
    rw [List.range'_succ]
    cases h : elemEq i with
    | true =>
      rw [List.find?_cons_of_neg _ (by simp [h])]
      simp only [compareEqualLoop, h, if_true]
      rw [ih (i + 1)]
      cases hf : (List.range' (i + 1) k).find? (fun j => !(elemEq j)) with
      | some j => rfl
      | none =>
        show i + 1 + k = i + (k + 1)
        omega
    | false =>
      rw [List.find?_cons_of_pos _ (by simp [h])]
      simp [compareEqualLoop, h]

/-- The sequential assignment recursion starting at index `i` with `k`
elements left equals the left fold of single-element assignments over
the index list `i, ..., i + k - 1`. -/
theorem copyAssignFrom_eq_foldl (src dst : IterationBufferPointer) (k : Nat) :
    ∀ (i : Nat) (mem : Mem),
      copyAssignFrom src dst i k mem =
        (List.range' i k).foldl
          (fun m (j : Nat) =>
            writeMem m (dst.base + j * dst.stride) (readElem m src j)) mem := by
  induction k with
  | zero => intro i mem; simp [copyAssignFrom]
  | succ k ih =>
    intro i mem
    rw [List.range'_succ, List.foldl_cons, copyAssignFrom, ih (i + 1)]

/-- C1: for built-in element types, the strided `compare_equal`
operation over `n` elements returns the index of the first mismatching
element, and `n` when all `n` elements match; over the test layout
(`arr1` with two-element stride against `arr2` with element-size
stride, first difference at index 2) it returns 2 for `n = 3`, returns
`n` for `n = 2` (all matching), and returns `n = 0` over a zero-length
range at any strides. -/
theorem compare_equal_first_mismatch :
    (∀ (mem : Mem) (n : Nat) (a b : IterationBufferPointer),
      uintCompareEqual mem n a b =
        specFirstMismatch (fun i => readElem mem a i = readElem mem b i) n) ∧
    uintCompareEqual cmpTestMem 3 ⟨0, 8⟩ ⟨100, 4⟩ = 2 ∧
    uintCompareEqual cmpTestMem 2 ⟨0, 8⟩ ⟨100, 4⟩ = 2 ∧
    (∀ a b : IterationBufferPointer, uintCompareEqual cmpTestMem 0 a b = 0) := by
  refine ⟨?_, by decide, by decide, fun a b => rfl⟩
  intro mem n a b
  unfold uintCompareEqual specFirstMismatch
  rw [compareEqualLoop_eq_find, ← List.range_eq_range']
  cases hf : (List.range n).find?
      (fun j => !(decide (readElem mem a j = readElem mem b j))) with
  | some j => rfl
  | none => exact Nat.zero_add n

/-- C2: a checked data-type cast from an invalid source handle to any
concrete target type succeeds and yields the target handle, while a
checked cast between two distinct concrete types fails with an error
message that contains both the source name and the target name; in
particular casting `float32` to `int32` fails with exactly the pinned
message. -/
theorem checked_cast_invalid_and_mismatch :
    (∀ target : DataTypeId,
      StaticDataTypeCast target .invalid = .ok (.builtin target)) ∧
    (∀ s t : DataTypeId, s ≠ t →
      StaticDataTypeCast t (.builtin s) =
        .error ("Cannot cast data type of " ++ dataTypeName s ++
                " to data type of " ++ dataTypeName t) ∧
      strContains ("Cannot cast data type of " ++ dataTypeName s ++
                   " to data type of " ++ dataTypeName t) (dataTypeName s) ∧
      strContains ("Cannot cast data type of " ++ dataTypeName s ++
                   " to data type of " ++ dataTypeName t) (dataTypeName t)) ∧
    StaticDataTypeCast .int32_t (.builtin .float32_t) =
      .error "Cannot cast data type of float32 to data type of int32" := by
  refine ⟨fun target => rfl, ?_, rfl⟩
  intro s t hst
  refine ⟨?_, ⟨"Cannot cast data type of ",
               " to data type of " ++ dataTypeName t, by
                 simp [String.append_assoc]⟩,
          ⟨"Cannot cast data type of " ++ dataTypeName s ++ " to data type of ",
           "", by simp [String.append_assoc]⟩⟩
  simp [StaticDataTypeCast, hst]

/-- C3: for every built-in identity, looking up the registry by the
identity's canonical name yields the singleton handle of that identity,
whose rendering is the original name (name to handle to name is the
identity); looking up a name absent from the registry, such as "foo",
yields the invalid handle rather than any valid one. -/
theorem registry_name_roundtrip :
    (∀ id : DataTypeId, id ≠ .custom →
      GetDataType (dataTypeName id) = .builtin id ∧
      (DataType.builtin id).render = dataTypeName id) ∧
    GetDataType "foo" = .invalid ∧ (GetDataType "foo").valid = false := by
  refine ⟨?_, by decide, by decide⟩
  intro id h
  cases id <;> first
    | exact absurd rfl h
    | exact ⟨by decide, rfl⟩

/-- C4: the default-constructed handle is invalid, differs from the
handle of every identity, equals every other default-constructed
handle, and renders as the fixed placeholder token, while every valid
handle renders as its name. -/
theorem invalid_handle_properties :
    DataType.invalid.valid = false ∧
    (∀ id : DataTypeId, (DataType.invalid == DataType.builtin id) = false) ∧
    DataType.invalid = DataType.invalid ∧
    DataType.invalid.render = "<unspecified>" ∧
    (∀ id : DataTypeId, (DataType.builtin id).render = dataTypeName id) := by
  exact ⟨rfl, fun id => rfl, rfl, rfl, fun id => rfl⟩

/-- C5: running the descriptor `construct` operation of the custom class
type `X` with `n = 2` and then its `destroy` operation with `n = 2`
runs the constructor exactly once per element (each element's `value`
field reads 3 after construct) and then the destructor exactly once per
element (each element's field reads 5 after destroy), both in element
index order. -/
theorem construct_destroy_once_per_element :
    ∀ mem : XMem,
      (xConstruct 2 mem).1 0 = 3 ∧ (xConstruct 2 mem).1 1 = 3 ∧
      (xConstruct 2 mem).2 = [XEvent.ctor 0, XEvent.ctor 1] ∧
      (xConstruct 2 mem).2.count (XEvent.ctor 0) = 1 ∧
      (xConstruct 2 mem).2.count (XEvent.ctor 1) = 1 ∧
      (xDestroy 2 (xConstruct 2 mem).1).1 0 = 5 ∧
      (xDestroy 2 (xConstruct 2 mem).1).1 1 = 5 ∧
      (xDestroy 2 (xConstruct 2 mem).1).2 = [XEvent.dtor 0, XEvent.dtor 1] ∧
      (xDestroy 2 (xConstruct 2 mem).1).2.count (XEvent.dtor 0) = 1 ∧
      (xDestroy 2 (xConstruct 2 mem).1).2.count (XEvent.dtor 1) = 1 :=
  fun _ => ⟨rfl, rfl, rfl, rfl, rfl, rfl, rfl, rfl, rfl, rfl⟩

/-- C6: the strided `copy_assign` and `move_assign` operations produce
exactly the final destination contents of the reference loop performing
element-by-element sequential assignment in index order, return the
full element count `n`, mutate nothing for `n = 0`, and reproduce the
destination contents of the strided test combinations of
`ElementOperationsTest.UnsignedIntCopyAssign`. -/
theorem assign_matches_reference_loop :
    (∀ (mem : Mem) (n : Nat) (src dst : IterationBufferPointer),
      (uintCopyAssign mem n src dst).1 = refSeqAssign src dst n mem ∧
      (uintCopyAssign mem n src dst).2 = n ∧
      (uintMoveAssign mem n src dst).1 = refSeqAssign src dst n mem ∧
      (uintMoveAssign mem n src dst).2 = n) ∧
    (∀ (mem : Mem) (src dst : IterationBufferPointer),
      (uintCopyAssign mem 0 src dst).1 = mem ∧
      (uintMoveAssign mem 0 src dst).1 = mem) ∧
    ((uintCopyAssign copyTestMem 2 ⟨0, 8⟩ ⟨100, 4⟩).1 100 = 1 ∧
     (uintCopyAssign copyTestMem 2 ⟨0, 8⟩ ⟨100, 4⟩).1 104 = 3 ∧
     (uintCopyAssign copyTestMem 2 ⟨0, 8⟩ ⟨100, 4⟩).1 108 = 4294967295 ∧
     (uintCopyAssign copyTestMem 2 ⟨0, 8⟩ ⟨100, 4⟩).1 112 = 4294967295 ∧
     (uintCopyAssign copyTestMem 2 ⟨0, 8⟩ ⟨100, 4⟩).1 116 = 4294967295) ∧
    ((uintCopyAssign
        (uintCopyAssign
          (uintCopyAssign copyTestMem 2 ⟨0, 8⟩ ⟨100, 4⟩).1
          2 ⟨0, 4⟩ ⟨104, 8⟩).1
        2 ⟨0, 4⟩ ⟨104, 4⟩).1 100 = 1 ∧
     (uintCopyAssign
        (uintCopyAssign
          (uintCopyAssign copyTestMem 2 ⟨0, 8⟩ ⟨100, 4⟩).1
          2 ⟨0, 4⟩ ⟨104, 8⟩).1
        2 ⟨0, 4⟩ ⟨104, 4⟩).1 104 = 1 ∧
     (uintCopyAssign
        (uintCopyAssign
          (uintCopyAssign copyTestMem 2 ⟨0, 8⟩ ⟨100, 4⟩).1
          2 ⟨0, 4⟩ ⟨104, 8⟩).1
        2 ⟨0, 4⟩ ⟨104, 4⟩).1 108 = 2 ∧
     (uintCopyAssign
        (uintCopyAssign
          (uintCopyAssign copyTestMem 2 ⟨0, 8⟩ ⟨100, 4⟩).1
          2 ⟨0, 4⟩ ⟨104, 8⟩).1
        2 ⟨0, 4⟩ ⟨104, 4⟩).1 112 = 2 ∧
     (uintCopyAssign
        (uintCopyAssign
          (uintCopyAssign copyTestMem 2 ⟨0, 8⟩ ⟨100, 4⟩).1
          2 ⟨0, 4⟩ ⟨104, 8⟩).1
        2 ⟨0, 4⟩ ⟨104, 4⟩).1 116 = 4294967295) := by
  refine ⟨?_, fun _ _ _ => ⟨rfl, rfl⟩,
          ⟨by decide, by decide, by decide, by decide, by decide⟩,
          ⟨by decide, by decide, by decide, by decide, by decide⟩⟩
  intro mem n src dst
  refine ⟨?_, rfl, ?_, rfl⟩ <;>
    simpa [uintCopyAssign, uintMoveAssign, refSeqAssign, List.range_eq_range'] using
      copyAssignFrom_eq_foldl src dst n 0 mem

/-- C7: the shared-block allocation helper computes the total byte size
as the exact product of element count and element size, fails
deterministically whenever that product exceeds what the address space
can provide, and never wraps the size computation to perform a small
allocation: any successful allocation is of exactly `count * elemSize`
bytes; in particular the test's count `0xFFFFFFFFFFFFFFF` of 4-byte
elements fails on any address space smaller than the exact product. -/
theorem alloc_overflow_fails :
    (∀ avail count elemSize : Nat, avail < count * elemSize →
      allocateSharedBytes avail count elemSize = .badAlloc) ∧
    (∀ avail count elemSize bytes : Nat,
      allocateSharedBytes avail count elemSize = .allocated bytes →
      bytes = count * elemSize ∧ bytes ≤ avail) ∧
    (∀ avail : Nat, avail < 0xFFFFFFFFFFFFFFF * 4 →
      allocateSharedBytes avail 0xFFFFFFFFFFFFFFF 4 = .badAlloc) := by
  refine ⟨?_, ?_, fun avail h => ?_⟩
  · intro avail count elemSize h
    unfold allocateSharedBytes
    rw [if_neg (by omega)]
  · intro avail count elemSize bytes h
    unfold allocateSharedBytes at h
    split at h
    · cases h
      exact ⟨rfl, by assumption⟩
    · cases h
  · unfold allocateSharedBytes
    rw [if_neg (by omega)]

/-- C8: the NumPy-type-code-to-DataType lookup returns the invalid
handle for every code outside the dense-table range `[0, NPY_NTYPES]`
and for every in-range code whose table entry is the `custom` sentinel
(the dynamically-registered bfloat16 code excepted, which is checked
first); the bfloat16 identity is resolved through the
dynamically-registered code independently of the static table; and
every other in-range code mapped to a canonical identity yields that
identity's singleton handle. -/
theorem numpy_code_lookup :
    (∀ (env : NumpyEnv) (t : Int), t ≠ env.bfloat16Num →
      (t < 0 ∨ t > env.npyNtypes) → getDataTypeFromNumpy env t = .invalid) ∧
    (∀ (env : NumpyEnv) (t : Int), t ≠ env.bfloat16Num →
      env.idForTypeNum t = .custom → getDataTypeFromNumpy env t = .invalid) ∧
    (∀ env : NumpyEnv,
      getDataTypeFromNumpy env env.bfloat16Num = .builtin .bfloat16_t) ∧
    (∀ (env : NumpyEnv) (t : Int) (id : DataTypeId), t ≠ env.bfloat16Num →
      ¬(t < 0 ∨ t > env.npyNtypes) → env.idForTypeNum t = id → id ≠ .custom →
      getDataTypeFromNumpy env t = .builtin id) := by
  refine ⟨?_, ?_, fun env => by simp [getDataTypeFromNumpy], ?_⟩
  · intro env t hbf hrange
    unfold getDataTypeFromNumpy
    rw [if_neg hbf, if_pos hrange]
  · intro env t hbf htab
    unfold getDataTypeFromNumpy
    rw [if_neg hbf]
    by_cases hrange : t < 0 ∨ t > env.npyNtypes
    · rw [if_pos hrange]
    · rw [if_neg hrange, htab]
  · intro env t id hbf hrange htab hid
    unfold getDataTypeFromNumpy
    rw [if_neg hbf, if_neg hrange, htab]
    cases id <;> first
      | exact absurd rfl hid
      | rfl

/-- C9: the mapping from a handle to the Python-level scalar constructor
bypasses the NumPy dtype lookup for the string, unicode-string, and
JSON identities — `string` and `ustring` return the boxed bytes/unicode
type objects directly, and the scalar-construction entry point converts
JSON arguments directly — so it never fails with a
no-corresponding-dtype error for those three identities, even when the
NumPy lookup fails on every identity. -/
theorem scalar_ctor_bypass :
    ∀ numpyLookup : DataTypeId → Except String PyTypeObj,
      getTypeObjectOrThrow numpyLookup .string_t = .ok .bytesType ∧
      getTypeObjectOrThrow numpyLookup .ustring_t = .ok .unicodeType ∧
      callDataType numpyLookup .json_t = .ok .jsonScalar ∧
      callDataType numpyLookup .string_t = .ok (.constructedBy .bytesType) ∧
      callDataType numpyLookup .ustring_t = .ok (.constructedBy .unicodeType) :=
  fun _ => ⟨rfl, rfl, rfl, rfl, rfl⟩

/-- C10: the `compare_equal` operation of the descriptor of the custom
class type `X`, which defines no equality comparison, returns 0 (a
mismatch reported at index 0) for every element count `n >= 1` and
every pair of buffer pointers, including two pointers to the same
memory; only the `n = 0` case returns `n`. -/
theorem class_compare_equal_zero :
    (∀ (n : Nat) (a b : IterationBufferPointer),
      1 ≤ n → xCompareEqual n a b = 0) ∧
    (∀ a b : IterationBufferPointer, xCompareEqual 0 a b = 0) := by
  refine ⟨?_, fun a b => rfl⟩
  intro n a b h
  match n, h with
  | n + 1, _ => rfl

/-- Witness for C2: the mismatch half of the checked-cast theorem at the
concrete pair `float32` to `int32`. -/
theorem checked_cast_invalid_and_mismatch_witness :
    StaticDataTypeCast .int32_t (.builtin .float32_t) =
      .error ("Cannot cast data type of " ++ dataTypeName .float32_t ++
              " to data type of " ++ dataTypeName .int32_t) ∧
    strContains ("Cannot cast data type of " ++ dataTypeName .float32_t ++
                 " to data type of " ++ dataTypeName .int32_t)
      (dataTypeName .float32_t) ∧
    strContains ("Cannot cast data type of " ++ dataTypeName .float32_t ++
                 " to data type of " ++ dataTypeName .int32_t)
      (dataTypeName .int32_t) :=
  checked_cast_invalid_and_mismatch.2.1 .float32_t .int32_t (by decide)

/-- Witness for C3: the registry round-trip at the concrete identity
`int8`. -/
theorem registry_name_roundtrip_witness :
    GetDataType (dataTypeName .int8_t) = .builtin .int8_t ∧
    (DataType.builtin DataTypeId.int8_t).render = dataTypeName .int8_t :=
  registry_name_roundtrip.1 .int8_t (by decide)

/-- Witness for C7: the allocation helper fails on the test's element
count `0xFFFFFFFFFFFFFFF` of 4-byte elements over a 48-bit address
space. -/
theorem alloc_overflow_fails_witness :
    allocateSharedBytes (2 ^ 48) 0xFFFFFFFFFFFFFFF 4 = .badAlloc :=
  alloc_overflow_fails.2.2 (2 ^ 48) (by norm_num)

/-- Witness for C8: concrete lookups in the sample NumPy environment: an
out-of-range code and an unmapped in-range code yield the invalid
handle, the dynamically-registered code 256 yields bfloat16, and the
mapped code 0 yields bool. -/
theorem numpy_code_lookup_witness :
    getDataTypeFromNumpy sampleNumpyEnv 30 = .invalid ∧
    getDataTypeFromNumpy sampleNumpyEnv 5 = .invalid ∧
    getDataTypeFromNumpy sampleNumpyEnv 256 = .builtin .bfloat16_t ∧
    getDataTypeFromNumpy sampleNumpyEnv 0 = .builtin .bool_t :=
  ⟨numpy_code_lookup.1 sampleNumpyEnv 30 (by decide) (by decide),
   numpy_code_lookup.2.1 sampleNumpyEnv 5 (by decide) (by decide),
   numpy_code_lookup.2.2.1 sampleNumpyEnv,
   numpy_code_lookup.2.2.2 sampleNumpyEnv 0 .bool_t (by decide) (by decide)
     (by decide) (by decide)⟩

/-- Witness for C10: the comparison of one `X` element against itself
through the same buffer pointer reports a mismatch at index 0. -/
theorem class_compare_equal_zero_witness :
    xCompareEqual 1 ⟨0, 0⟩ ⟨0, 0⟩ = 0 :=
  class_compare_equal_zero.1 1 ⟨0, 0⟩ ⟨0, 0⟩ (by decide)

end TensorStore
